import Mathlib

/-!
Verification of the tolerant parsing/normalization pipeline of adep-saham/Harga
(src/app.py): decoding of the embedded json_fluktuasi payload, column
auto-mapping and series normalization, and (category, interval) record
selection.  Each definition is a shallow embedding of the corresponding piece
of src/app.py; doc comments cite the source lines.
-/

/-- JSON values as produced by json.loads.  Numbers are modelled as integers:
the payloads carry integer prices and string dates, and no property below
depends on fractional numerics. -/
inductive Json where
  | null : Json
  | bool (b : Bool) : Json
  | num (n : Int) : Json
  | str (s : String) : Json
  | arr (xs : List Json) : Json
  | obj (kvs : List (String × Json)) : Json

/-- Python dict access (k in d, d[k], d.get(k)) on a JSON mapping modelled as an
association list: the first binding for the key wins. -/
def dictGet (kvs : List (String × Json)) (k : String) : Option Json :=
  (kvs.find? (fun p => p.1 == k)).map (fun p => p.2)

/-- Whether a JSON value is a mapping (Python isinstance(x, dict)). -/
def Json.isObj : Json → Bool
  | .obj _ => true
  | _ => false

/-- src/app.py lines 60-82, parse_json_fluktuasi, applied to the value already
parsed by json.loads (line 68).  Handled variants per the code comment:
pricedlist-wrapped mapping, singleton list around it, a plain list of
mappings, and a bare mapping; everything else falls through to an empty
list.  Only the spelling "pricedlist" is looked up. -/
def parse_json_fluktuasi (j : Json) : Json :=
  match j with
  | .arr (first :: rest) =>
    match first with
    | .obj kvs =>
      match dictGet kvs "pricedlist" with
      | some v => v
      | none => .arr (.obj kvs :: rest)
    | _ => .arr []
  | .obj kvs =>
    match dictGet kvs "pricedlist" with
    | some v => v
    | none => .arr [.obj kvs]
  | _ => .arr []

/-- Python truthiness (bool(x)) of a JSON value, as used by the guard
"if not priced" at src/app.py line 176. -/
def Json.falsy : Json → Bool
  | .null => true
  | .bool b => !b
  | .num n => n == 0
  | .str s => s == ""
  | .arr xs => xs.isEmpty
  | .obj kvs => kvs.isEmpty

/-- The spec's ShapeDecoder error taxonomy.  MalformedPayloadError (json.loads
failing, upstream of the Json value) is outside this embedding. -/
inductive ShapeError where
  | unrecognizedShape : ShapeError
  deriving DecidableEq, Repr

/-- The spec's ShapeDecoder.decode as realized by src/app.py: the pure shape
normalization parse_json_fluktuasi (lines 60-82) combined with the caller's
empty-result guard (lines 176-178), whose st.error + st.stop path is what
the spec's taxonomy names UnrecognizedShapeError. -/
def decode (j : Json) : Except ShapeError Json :=
  let priced := parse_json_fluktuasi j
  if priced.falsy then .error .unrecognizedShape else .ok priced

/-- The payload classes claim C2 quantifies over: a top-level scalar, the empty
list, or a non-empty list whose first element is not a mapping. -/
def unrecognizedTop (j : Json) : Prop :=
  match j with
  | .null => True
  | .bool _ => True
  | .num _ => True
  | .str _ => True
  | .arr [] => True
  | .arr (first :: _) => first.isObj = false
  | .obj _ => False

/-- Python str.lower() restricted to ASCII, which covers every category string
this program compares ("beli"/"jual" and their case variants). -/
def pyLower (s : String) : String := ⟨s.data.map Char.toLower⟩

/-- ASCII uppercase letter test, the formal reading of "contains an uppercase
letter" in claim C10. -/
def isUpperAscii (c : Char) : Bool := 65 ≤ c.toNat && c.toNat ≤ 90

/-- One raw price point: a JSON mapping field-name → value, i.e. one row fed to
pd.DataFrame(priced) at src/app.py line 180. -/
abbrev Row := List (String × Json)

/-- Append to an accumulated column list the keys of one row that are not yet
present, preserving first-appearance order. -/
def addCols (acc : List String) (ks : List String) : List String :=
  ks.foldl (fun a k => if a.contains k then a else a ++ [k]) acc

/-- The column index of pd.DataFrame built from a list of dicts: the union of
the rows' keys in order of first appearance. -/
def dfColumns (rows : List Row) : List String :=
  rows.foldl (fun acc r => addCols acc (r.map Prod.fst)) []

/-- src/app.py lines 84-88, pick_first_existing: the first candidate name that
is one of the DataFrame's columns. -/
def pick_first_existing (cols : List String) (candidates : List String) : Option String :=
  candidates.find? (fun c => cols.contains c)

/-- src/app.py lines 96-99: candidate date column names, in priority order. -/
def date_candidates : List String :=
  ["lastUpdate", "last_update", "updatedAt", "updatedat",
   "date", "tanggal", "time", "datetime", "x", "t"]

/-- src/app.py line 104: candidate generic price column names. -/
def price_candidates : List String := ["harga", "value", "y", "price", "close"]

/-- src/app.py line 107: candidate buy price column names. -/
def buy_candidates : List String := ["hargaBeli", "harga_beli", "buy", "buyPrice", "priceBuy"]

/-- src/app.py line 108: candidate sell price column names. -/
def sell_candidates : List String := ["hargaJual", "harga_jual", "sell", "sellPrice", "priceSell"]

/-- Decimal digits of a character list read as a natural numeral: none when
the list is empty or holds a non-digit. -/
def digitsToNat? (cs : List Char) : Option Nat :=
  if cs = [] ∨ ¬ cs.all (fun c => 48 ≤ c.toNat ∧ c.toNat ≤ 57) then none
  else some (cs.foldl (fun a c => a * 10 + (c.toNat - 48)) 0)

/-- Split a character list at dash characters. -/
def splitDash : List Char → List (List Char)
  | [] => [[]]
  | c :: rest =>
    match splitDash rest with
    | [] => [[]]
    | h :: t => if c = '-' then [] :: h :: t else (c :: h) :: t

/-- An integer numeral with an optional leading minus sign. -/
def intOfChars? (cs : List Char) : Option Int :=
  match cs with
  | '-' :: rest => (digitsToNat? rest).map (fun n => -(Int.ofNat n))
  | _ => (digitsToNat? cs).map Int.ofNat

/-- Dates are represented by an integer sort key (an ISO date y-m-d is encoded
as y*10000 + m*100 + d, which orders exactly like the calendar date). -/
def parseIsoDate (s : String) : Option Int :=
  match splitDash s.data with
  | [y, m, d] =>
    match digitsToNat? y, digitsToNat? m, digitsToNat? d with
    | some yn, some mn, some dn =>
      if 1 ≤ mn ∧ mn ≤ 12 ∧ 1 ≤ dn ∧ dn ≤ 31 then
        some (Int.ofNat (yn * 10000 + mn * 100 + dn))
      else none
    | _, _, _ => none
  | _ => none

/-- pd.to_datetime(column, errors="coerce") on one cell (src/app.py line 117),
restricted to the value forms the payloads carry: ISO year-month-day strings
and integer stamps.  Missing cells and unparseable values coerce to null
(NaT), exactly the errors="coerce" behavior; the full permissive dateutil
grammar is not reproduced, and no claim depends on which extra string forms
parse. -/
def pdToDatetime : Option Json → Option Int
  | some (Json.str s) => parseIsoDate s
  | some (Json.num n) => some n
  | _ => none

/-- pd.to_numeric(column, errors="coerce") on one cell (src/app.py lines
129-136): numbers pass through, string-encoded integers parse, booleans cast
to 0/1, everything else (and missing cells) coerces to null (NaN). -/
def pdToNumeric : Option Json → Option Int
  | some (Json.num n) => some n
  | some (Json.str s) => intOfChars? s.data
  | some (Json.bool b) => some (if b then 1 else 0)
  | _ => none

/-- One normalized output row of auto_map's out DataFrame:
columns tanggal, harga_beli, harga_jual (src/app.py lines 116-123). -/
structure NormPoint where
  tanggal : Option Int
  harga_beli : Option Int
  harga_jual : Option Int
  deriving DecidableEq, Repr

/-- The used mapping returned by auto_map (src/app.py line 125). -/
structure UsedCols where
  date : Option String
  buy : Option String
  sell : Option String
  generic : Option String
  deriving DecidableEq, Repr

/-- src/app.py lines 96-114 and 125: column resolution of auto_map, producing
the used mapping (date/buy/sell/generic candidates against df.columns). -/
def resolvedCols (rows : List Row) : UsedCols where
  date := pick_first_existing (dfColumns rows) date_candidates
  buy := pick_first_existing (dfColumns rows) buy_candidates
  sell := pick_first_existing (dfColumns rows) sell_candidates
  generic := pick_first_existing (dfColumns rows) price_candidates

/-- src/app.py lines 127-139, the price-column strategy of auto_map: which
source column feeds harga_beli and which feeds harga_jual.  When a buy or a
sell column exists the generic price column is never consulted; otherwise a
generic column goes to harga_jual exactly when tipe.lower() == "jual", else
to harga_beli; with no column at all both stay null.  (A resolved column
name is a non-empty candidate string, so Python truthiness of the name
coincides with Option.isSome.) -/
def priceAssign (buyCol sellCol genericCol : Option String) (tipe : String) :
    Option String × Option String :=
  if buyCol.isSome || sellCol.isSome then
    (buyCol, sellCol)
  else
    match genericCol with
    | some g => if pyLower tipe == "jual" then (none, some g) else (some g, none)
    | none => (none, none)

/-- Rowwise content of auto_map's out DataFrame (src/app.py lines 116-139):
the columnwise pd.to_datetime / pd.to_numeric assignments act cell by cell,
so row i of out is a function of row i of df alone. -/
def normRow (dateCol beliSrc jualSrc : Option String) (r : Row) : NormPoint where
  tanggal :=
    match dateCol with
    | some c => pdToDatetime (dictGet r c)
    | none => none
  harga_beli :=
    match beliSrc with
    | some c => pdToNumeric (dictGet r c)
    | none => none
  harga_jual :=
    match jualSrc with
    | some c => pdToNumeric (dictGet r c)
    | none => none

/-- Date order used by out.sort_values("tanggal"): ascending, with null (NaT)
sorted after every real date (na_position defaults to "last"). -/
def dateLe (a b : Option Int) : Prop :=
  match a, b with
  | some x, some y => x ≤ y
  | some _, none => True
  | none, some _ => False
  | none, none => True

instance : DecidableRel dateLe
  | some x, some y => inferInstanceAs (Decidable (x ≤ y))
  | some _, none => isTrue trivial
  | none, some _ => isFalse (fun h => h)
  | none, none => isTrue trivial

/-- Row order of out.sort_values("tanggal") (src/app.py line 141): by the
tanggal column alone. -/
def pointLe (p q : NormPoint) : Prop := dateLe p.tanggal q.tanggal

instance : DecidableRel pointLe := fun p q =>
  inferInstanceAs (Decidable (dateLe p.tanggal q.tanggal))

/-- src/app.py line 141, out.sort_values("tanggal").reset_index(drop=True):
rows reordered ascending by tanggal with NaT rows last.  Ties are modelled
stably (a stable sort realizes pandas' documented ordering contract:
ascending on the key, na_position="last").  Note the code relies on the
default kind="quicksort"; numpy's quicksort kernel does not keep the
original order of tied rows once more than 16 keys are partitioned — see
npArgsort below, which transcribes that kernel to exhibit the divergence
claim C5 is concerned with. -/
def sortByTanggal (l : List NormPoint) : List NormPoint := l.insertionSort pointLe

/-- Whether any column resolved — equivalently, whether auto_map ever writes
a pandas Series (rather than a scalar) into the out frame: the date column
assignment (line 117's if arm) and the buy/sell/generic assignments (lines
129, 131, 134, 136) are the Series writes, and one of them runs exactly
when the corresponding column resolved. -/
def anyResolved (u : UsedCols) : Bool :=
  u.date.isSome || u.buy.isSome || u.sell.isSome || u.generic.isSome

/-- src/app.py lines 90-142, auto_map: resolve columns, coerce the date and
price columns cellwise, and sort by date.  Returns the normalized series and
the used column mapping.  out starts as pd.DataFrame() with an empty index
(line 116); a scalar assignment (pd.NaT at line 117's else arm, pd.NA at
lines 122-123) broadcasts over the current index and keeps zero rows, while
the first length-n Series assignment re-indexes the empty frame to the n
input rows (pandas fills the already-written scalar columns with nulls).
So out has one row per input row exactly when some column resolved, and
zero rows — every input row dropped — when none did. -/
def auto_map (rows : List Row) (tipe : String) : List NormPoint × UsedCols :=
  if anyResolved (resolvedCols rows) then
    (sortByTanggal (rows.map (normRow (resolvedCols rows).date
        (priceAssign (resolvedCols rows).buy (resolvedCols rows).sell
          (resolvedCols rows).generic tipe).1
        (priceAssign (resolvedCols rows).buy (resolvedCols rows).sell
          (resolvedCols rows).generic tipe).2)),
     resolvedCols rows)
  else ([], resolvedCols rows)

/-- Modelled from the spec: the validDateCount output of SeriesBuilder.build
("Report validDateCount = count of points with non-null date").  The variant
in src/app.py returns only (out, used) and reports no such count; the spec
covers the repository's ten near-duplicate scripts, of which src/ holds this
one, so the reported count is modelled from the spec's words over the series
that auto_map builds. -/
def validDateCount (series : List NormPoint) : Nat :=
  series.countP (fun p => p.tanggal.isSome)

/-- One catalog entry of the allGrafik response (src/app.py lines 12-21):
tipe, time_interval, json_fluktuasi (updatedat is informational passthrough
and unused by the pipeline).  The record's fields are modelled as present;
the r.get defaults for absent keys are exercised by no claim. -/
structure GrafikRecord where
  tipe : String
  time_interval : Int
  json_fluktuasi : Json

/-- The per-record predicate of the selection at src/app.py lines 156-161:
str(r.get("tipe", "")).lower() == tipe and int(r.get("time_interval", -1))
== int(interval).  Only the record's side is lowercased. -/
def matchesQuery (tipe : String) (interval : Int) (r : GrafikRecord) : Bool :=
  pyLower r.tipe == tipe && r.time_interval == interval

/-- src/app.py lines 156-161: next((r for r in records if ...), None) — the
first record in catalog order satisfying the predicate, if any. -/
def selectRecord (records : List GrafikRecord) (tipe : String) (interval : Int) :
    Option GrafikRecord :=
  records.find? (matchesQuery tipe interval)

/-- Python tuple order on a (str, int) pair: lexicographic on the string, then
numeric on the integer — the order used by sorted() at src/app.py line 165. -/
def pairLe (a b : String × Int) : Prop := a.1 < b.1 ∨ (a.1 = b.1 ∧ a.2 ≤ b.2)

instance : DecidableRel pairLe := fun a b =>
  inferInstanceAs (Decidable (a.1 < b.1 ∨ (a.1 = b.1 ∧ a.2 ≤ b.2)))

/-- sorted() over a finite set of (str, int) pairs: the unique duplicate-free
pairLe-sorted enumeration of the set. -/
def sortPairs (l : List (String × Int)) : List (String × Int) := l.insertionSort pairLe

/-- src/app.py line 165: sorted({(str(r.get("tipe", "")).lower(),
int(r.get("time_interval", -1))) for r in records}) — the available-combos
payload shown when no record matches.  The set comprehension de-duplicates
after lowercasing; sorted() orders the pairs. -/
def combos (records : List GrafikRecord) : List (String × Int) :=
  sortPairs ((records.map (fun r => (pyLower r.tipe, r.time_interval))).dedup)

/-- Claim C7's payload as the spec words it, for comparison with combos: the
de-duplicated (category, interval) pairs exactly as present in the catalog
(no lowercasing), sorted lexicographically then numerically. -/
def specCombos (records : List GrafikRecord) : List (String × Int) :=
  sortPairs ((records.map (fun r => (r.tipe, r.time_interval))).dedup)

/-- The spec's RecordSelector error: NotFoundError carrying the available
(category, interval) pairs. -/
inductive SelectError where
  | notFound (available : List (String × Int)) : SelectError

/-- src/app.py lines 156-167: record selection together with its no-match
branch — the st.warning + st.write(combos) + st.stop path that the spec's
taxonomy names NotFoundError. -/
def selectOrError (records : List GrafikRecord) (tipe : String) (interval : Int) :
    Except SelectError GrafikRecord :=
  match selectRecord records tipe interval with
  | some r => .ok r
  | none => .error (.notFound (combos records))

/-- Case-insensitive equality of category strings, as the spec's comparison
contract words it (both sides folded). -/
def ciEq (a b : String) : Bool := pyLower a == pyLower b

/-- Index read with default 0 (all accesses the transcription below performs on
reachable paths are in bounds; the default is never consulted there). -/
def getIdx (l : List Nat) (i : Nat) : Nat := l.getD i 0

/-- Key read with default 0, same in-bounds caveat as getIdx. -/
def getKey (v : List Int) (i : Nat) : Int := v.getD i 0

/-- In-place style element write on the index list. -/
def setIdx (l : List Nat) (i : Nat) (x : Nat) : List Nat := l.set i x

/-- INTP_SWAP of numpy's sort kernels: exchange two positions of the index
list. -/
def swapIdx (l : List Nat) (i j : Nat) : List Nat :=
  (l.set i (getIdx l j)).set j (getIdx l i)

/-- The first inner scan of the quicksort partition:
"do ++pi; while (LT(v[tosort[pi]], vp));".  Fuel-bounded; the pivot copy at
the right end of the segment stops the scan before it leaves the segment. -/
def scanRight (v : List Int) (t : List Nat) (vp : Int) : Nat → Nat → Nat
  | 0, pi => pi
  | fuel + 1, pi =>
    if getKey v (getIdx t (pi + 1)) < vp then scanRight v t vp fuel (pi + 1) else pi + 1

/-- The second inner scan of the quicksort partition:
"do --pj; while (LT(vp, v[tosort[pj]]));".  The median-of-three element at
the left end stops the scan. -/
def scanLeft (v : List Int) (t : List Nat) (vp : Int) : Nat → Nat → Nat
  | 0, pj => pj
  | fuel + 1, pj =>
    if vp < getKey v (getIdx t (pj - 1)) then scanLeft v t vp fuel (pj - 1) else pj - 1

/-- The swap loop of the Hoare-style partition in numpy's aquicksort_:
scan from both ends, swap out-of-place pairs, stop when the scans cross;
returns the updated index list and the crossing position pi. -/
def partLoop (v : List Int) (vp : Int) : Nat → List Nat → Nat → Nat → List Nat × Nat
  | 0, t, pi, _ => (t, pi)
  | fuel + 1, t, pi, pj =>
    let pi2 := scanRight v t vp (t.length + 1) pi
    let pj2 := scanLeft v t vp (t.length + 1) pj
    if pj2 ≤ pi2 then (t, pi2)
    else partLoop v vp fuel (swapIdx t pi2 pj2) pi2 pj2

/-- One partition step of numpy's aquicksort_ over the segment [pl, pr] of the
index list: median-of-three pivot selection (with the three conditional
swaps), pivot parked at pr-1, the swap loop, and the final swap placing the
pivot at the crossing point pi. -/
def partitionSeg (v : List Int) (t : List Nat) (pl pr : Nat) : List Nat × Nat :=
  let pm := pl + (pr - pl) / 2
  let t1 := if getKey v (getIdx t pm) < getKey v (getIdx t pl) then swapIdx t pm pl else t
  let t2 := if getKey v (getIdx t1 pr) < getKey v (getIdx t1 pm) then swapIdx t1 pr pm else t1
  let t3 := if getKey v (getIdx t2 pm) < getKey v (getIdx t2 pl) then swapIdx t2 pm pl else t2
  let vp := getKey v (getIdx t3 pm)
  let t4 := swapIdx t3 pm (pr - 1)
  let r := partLoop v vp (t4.length + 1) t4 pl (pr - 1)
  (swapIdx r.1 r.2 (pr - 1), r.2)

/-- The shift loop of the small-segment insertion sort in aquicksort_:
"while (pj > pl && LT(vp, v[tosort[pk]])) tosort[pj--] = tosort[pk--];". -/
def insShift (v : List Int) (pl : Nat) (vp : Int) : Nat → List Nat → Nat → List Nat × Nat
  | 0, t, pj => (t, pj)
  | fuel + 1, t, pj =>
    if pl < pj ∧ vp < getKey v (getIdx t (pj - 1)) then
      insShift v pl vp fuel (setIdx t pj (getIdx t (pj - 1))) (pj - 1)
    else (t, pj)

/-- The insertion sort aquicksort_ runs on segments of at most
SMALL_QUICKSORT + 1 = 16 elements: for pi from pl+1 to pr, shift larger
elements right and drop tosort[pi] into place.  Note the strict comparison:
on such small segments tied keys keep their original order. -/
def insSegment (v : List Int) (pl pr : Nat) (t : List Nat) : List Nat :=
  (List.range' (pl + 1) (pr - pl)).foldl
    (fun t pi =>
      let vi := getIdx t pi
      let vp := getKey v vi
      let r := insShift v pl vp (pi + 1) t pi
      setIdx r.1 r.2 vi)
    t

/-- One sift pass of numpy's aheapsort_ (1-based heap indexing over the
segment starting at base): carry the key of tmp down the larger-child path
while it is smaller; returns the updated index list together with the
position the caller must drop tmp into.  The inner loop
"for (i = l, j = l*2; j <= n;)" is fuel-bounded. -/
def heapSiftLoop (v : List Int) (base n : Nat) (tmp : Nat) :
    List Nat × Nat → Nat → Nat → List Nat × Nat
  | (t, i), _, 0 => (t, i)
  | (t, i), j, fuel + 1 =>
    if j ≤ n then
      let j2 := if j < n ∧ getKey v (getIdx t (base + j - 1)) <
          getKey v (getIdx t (base + j)) then j + 1 else j
      if getKey v tmp < getKey v (getIdx t (base + j2 - 1)) then
        heapSiftLoop v base n tmp (setIdx t (base + i - 1) (getIdx t (base + j2 - 1)), j2)
          (j2 + j2) fuel
      else (t, i)
    else (t, i)

/-- numpy's aheapsort_ on the segment [pl, pr] of the index list: the
depth-limit fallback of aquicksort_.  Heapify then pop.  This branch is
unreachable for the 17-element demonstration input below (its depth budget
is 2*msb(17) = 8 and only a handful of partitions occur); it is transcribed
for completeness of the kernel. -/
def aheapsortSeg (v : List Int) (t : List Nat) (pl pr : Nat) : List Nat :=
  let n := pr + 1 - pl
  let heapified := (List.range (n / 2)).foldl
    (fun t k =>
      let l := n / 2 - k
      let tmp := getIdx t (pl + l - 1)
      let r := heapSiftLoop v pl n tmp (t, l) (l + l) (n + 2)
      setIdx r.1 (pl + r.2 - 1) tmp)
    t
  (List.range (n - 1)).foldl
    (fun t k =>
      let m := n - k
      let tmp := getIdx t (pl + m - 1)
      let t1 := setIdx t (pl + m - 1) (getIdx t pl)
      let r := heapSiftLoop v pl (m - 1) tmp (t1, 1) 2 (n + 2)
      setIdx r.1 (pl + r.2 - 1) tmp)
    heapified

/-- The driver loop of numpy's aquicksort_ (npysort/quicksort.c.src), the
kernel behind np.argsort(kind="quicksort") and hence behind pandas
sort_values' default kind: while a segment is longer than
SMALL_QUICKSORT + 1 = 16 elements, partition it (spending one unit of the
shared depth budget, falling back to aheapsort_ when it is exhausted), loop
on the smaller part and stack the larger; small segments get the insertion
sort; then pop the stack. -/
def aquicksortLoop (v : List Int) :
    Nat → List Nat → List (Nat × Nat) → Int → Nat → Nat → List Nat
  | 0, t, _, _, _, _ => t
  | fuel + 1, t, stack, depth, pl, pr =>
    if 15 < pr - pl then
      if depth < 0 then
        let t2 := aheapsortSeg v t pl pr
        match stack with
        | [] => t2
        | (spl, spr) :: rest => aquicksortLoop v fuel t2 rest (depth - 1) spl spr
      else
        let r := partitionSeg v t pl pr
        if r.2 - pl < pr - r.2 then
          aquicksortLoop v fuel r.1 ((r.2 + 1, pr) :: stack) (depth - 1) pl (r.2 - 1)
        else
          aquicksortLoop v fuel r.1 ((pl, r.2 - 1) :: stack) (depth - 1) (r.2 + 1) pr
    else
      let t2 := insSegment v pl pr t
      match stack with
      | [] => t2
      | (spl, spr) :: rest => aquicksortLoop v fuel t2 rest depth spl spr

/-- np.argsort(v, kind="quicksort") — the sort kernel pandas sort_values uses
by default at src/app.py line 141 (for a key column without nulls,
sort_values' take-indexer is exactly this argsort).  Fuel-bounded
transcription of numpy's aquicksort_ with depth budget 2 * msb(num); the
fuel is generous and never runs out on the demonstration input. -/
def npArgsort (v : List Int) : List Nat :=
  match v.length with
  | 0 => []
  | n + 1 =>
    aquicksortLoop v (4 * (n + 1) + 64) (List.range (n + 1)) []
      (Int.ofNat (2 * Nat.log2 (n + 1))) 0 n

/-- Seventeen equal sort keys: seventeen rows sharing one tanggal value. -/
def c5keys : List Int := List.replicate 17 0

/-- The inner point list used in decoder demonstrations. -/
def innerList : Json := .arr [.obj [("lastUpdate", .str "2024-06-01")]]

/-- A payload wrapped under the alternate spelling priceList, which the spec
says the decoder must also try. -/
def priceListPayload : Json := .obj [("priceList", innerList)]

/-- A point set carrying only a generic price column and a date column. -/
def genericRows : List Row := [[("harga", Json.num 100), ("tanggal", Json.str "2024-01-02")]]

/-- Two points whose only key, foo, matches no date or price candidate. -/
def noColsRows : List Row := [[("foo", Json.num 1)], [("foo", Json.num 2)]]

/-- A catalog record with lowercase category beli. -/
def beliRecord : GrafikRecord := ⟨"beli", 360, Json.null⟩

/-- A catalog record with uppercase category BELI. -/
def upperBeliRecord : GrafikRecord := ⟨"BELI", 360, Json.null⟩

/-- A catalog record with lowercase category jual and interval 30. -/
def jualRecord : GrafikRecord := ⟨"jual", 30, Json.null⟩

instance : IsTrans (Option Int) dateLe where
  trans a b c hab hbc := by
    cases a <;> cases b <;> cases c <;>
      simp only [dateLe] at * <;> first | trivial | omega

instance : IsTotal (Option Int) dateLe where
  total a b := by
    cases a <;> cases b <;> simp only [dateLe] <;>
      first
      | exact Or.inl trivial
      | exact Or.inr trivial
      | exact Int.le_total _ _

instance : IsTrans NormPoint pointLe where
  trans p q s hpq hqs :=
    @IsTrans.trans (Option Int) dateLe inferInstance p.tanggal q.tanggal s.tanggal hpq hqs

instance : IsTotal NormPoint pointLe where
  total p q := @IsTotal.total (Option Int) dateLe inferInstance p.tanggal q.tanggal

instance : IsTrans (String × Int) pairLe where
  trans a b c hab hbc := by
    rcases hab with h1 | ⟨h1, h1i⟩ <;> rcases hbc with h2 | ⟨h2, h2i⟩
    · exact Or.inl (lt_trans h1 h2)
    · exact Or.inl (h2 ▸ h1)
    · exact Or.inl (h1 ▸ h2)
    · exact Or.inr ⟨h1.trans h2, le_trans h1i h2i⟩

instance : IsTotal (String × Int) pairLe where
  total a b := by
    rcases lt_trichotomy a.1 b.1 with h | h | h
    · exact Or.inl (Or.inl h)
    · rcases Int.le_total a.2 b.2 with hi | hi
      · exact Or.inl (Or.inr ⟨h, hi⟩)
      · exact Or.inr (Or.inr ⟨h.symm, hi⟩)
    · exact Or.inr (Or.inl h)

theorem toLower_not_upperAscii (c : Char) : isUpperAscii (Char.toLower c) = false := by
  show isUpperAscii (if c.toNat ≥ 65 ∧ c.toNat ≤ 90 then Char.ofNat (c.toNat + 32) else c) = false
  split
  · rename_i h
    have hv : (c.toNat + 32).isValidChar := Or.inl (by omega)
    unfold Char.ofNat
    rw [dif_pos hv]
    have ht : (Char.ofNatAux (c.toNat + 32) hv).toNat = c.toNat + 32 := rfl
    have h90 : ¬(c.toNat + 32 ≤ 90) := by omega
    simp [isUpperAscii, ht, h90]
  · rename_i h
    by_cases h65 : 65 ≤ c.toNat
    · have h90 : ¬(c.toNat ≤ 90) := fun hle => h ⟨h65, hle⟩
      simp [isUpperAscii, h90]
    · simp [isUpperAscii, h65]

theorem mem_pyLower_not_upper {c : Char} {s : String} (h : c ∈ (pyLower s).data) :
    isUpperAscii c = false := by
  obtain ⟨c2, _, rfl⟩ := List.mem_map.mp h
  exact toLower_not_upperAscii c2

theorem find?_first {α : Type} (p : α → Bool) :
    ∀ (l : List α) (a : α), l.find? p = some a ↔
      p a = true ∧ ∃ pre post, l = pre ++ a :: post ∧ ∀ x ∈ pre, p x = false := by
  intro l a
  induction l with
  | nil => simp
  | cons b l ih =>
    by_cases hb : p b = true
    · rw [List.find?_cons_of_pos _ hb]
      constructor
      · intro h
        cases h
        exact ⟨hb, [], l, rfl, by simp⟩
      · rintro ⟨ha, pre, post, heq, hpre⟩
        cases pre with
        | nil =>
          rw [List.nil_append] at heq
          cases heq
          rfl
        | cons c2 pre =>
          rw [List.cons_append] at heq
          cases heq
          exact absurd hb (by simp [hpre b (List.mem_cons_self b pre)])
    · rw [List.find?_cons_of_neg _ hb, ih]
      constructor
      · rintro ⟨ha, pre, post, heq, hpre⟩
        refine ⟨ha, b :: pre, post, by rw [heq, List.cons_append], ?_⟩
        intro x hx
        rcases List.mem_cons.mp hx with rfl | hx2
        · simpa using hb
        · exact hpre x hx2
      · rintro ⟨ha, pre, post, heq, hpre⟩
        cases pre with
        | nil =>
          rw [List.nil_append] at heq
          cases heq
          exact absurd ha hb
        | cons c2 pre =>
          rw [List.cons_append] at heq
          cases heq
          exact ⟨ha, pre, post, rfl, fun x hx => hpre x (List.mem_cons_of_mem _ hx)⟩

/-- C1 (counterexample): the alternate spelling priceList is not recognized.
Decoding the payload priceListPayload, a mapping holding the point list
under the key priceList, does not return the inner list: the whole mapping
is wrapped as a one-element sequence instead, because parse_json_fluktuasi
only looks up the spelling pricedlist. -/
theorem priceList_spelling_counterexample :
    parse_json_fluktuasi priceListPayload = Json.arr [priceListPayload]
  ∧ decode priceListPayload = Except.ok (Json.arr [priceListPayload])
  ∧ parse_json_fluktuasi priceListPayload ≠ innerList := by
  refine ⟨rfl, rfl, ?_⟩
  · intro hEq
    have hEq2 : Json.arr [priceListPayload] = innerList := hEq
    simp only [priceListPayload, innerList, Json.arr.injEq, List.cons.injEq, and_true,
      Json.obj.injEq, Prod.mk.injEq] at hEq2
    exact absurd hEq2.1 (by decide)

/-- C1 (amended): only the spelling pricedlist is recognized as list-bearing.
A mapping keyed by pricedlist yields the value at that key, while a mapping
keyed only by priceList is treated as a bare mapping — returned as a
one-element sequence — and a non-empty list whose first element is such a
mapping is returned whole. -/
theorem pricedlist_only_spelling (v : Json) (rest : List Json) :
    parse_json_fluktuasi (Json.obj [("pricedlist", v)]) = v
  ∧ parse_json_fluktuasi (Json.obj [("priceList", v)]) = Json.arr [Json.obj [("priceList", v)]]
  ∧ parse_json_fluktuasi (Json.arr (Json.obj [("priceList", v)] :: rest)) =
      Json.arr (Json.obj [("priceList", v)] :: rest) :=
  ⟨rfl, rfl, rfl⟩

/-- C2: on every JSON payload outside the recognized wrapper shapes — a
top-level scalar, the empty list, or a non-empty list whose first element is
not a mapping — parse_json_fluktuasi falls through to the empty list, and
the decoder therefore rejects the payload with UnrecognizedShapeError (the
empty-result guard of src/app.py lines 176-178) instead of producing a
point sequence. -/
theorem decode_unrecognized_shapes (j : Json) (h : unrecognizedTop j) :
    parse_json_fluktuasi j = Json.arr []
  ∧ decode j = Except.error ShapeError.unrecognizedShape := by
  have hp : parse_json_fluktuasi j = Json.arr [] := by
    cases j with
    | null => rfl
    | bool b => rfl
    | num n => rfl
    | str s => rfl
    | obj kvs => exact absurd h (by simp [unrecognizedTop])
    | arr xs =>
      cases xs with
      | nil => rfl
      | cons first rest =>
        cases first <;>
          first
          | rfl
          | exact absurd h (by simp [unrecognizedTop, Json.isObj])
  exact ⟨hp, by simp [decode, hp, Json.falsy]⟩

/-- C2 (witness): a top-level number is rejected. -/
theorem decode_unrecognized_shapes_witness :
    parse_json_fluktuasi (Json.num 5) = Json.arr []
  ∧ decode (Json.num 5) = Except.error ShapeError.unrecognizedShape :=
  decode_unrecognized_shapes (Json.num 5) trivial

/-- C8: the four observed payload shapes decode to the expected flat point
sequence: a mapping with the pricedlist key yields the value at that key; a
non-empty list whose first element is such a mapping yields that element's
value at the key; a non-empty list whose first element is a mapping without
the key is returned whole; and a bare mapping without the key becomes a
one-element sequence holding that mapping. -/
theorem decode_four_shapes (kvs : List (String × Json)) (rest : List Json) (v : Json) :
    (dictGet kvs "pricedlist" = some v → parse_json_fluktuasi (Json.obj kvs) = v)
  ∧ (dictGet kvs "pricedlist" = some v →
      parse_json_fluktuasi (Json.arr (Json.obj kvs :: rest)) = v)
  ∧ (dictGet kvs "pricedlist" = none →
      parse_json_fluktuasi (Json.arr (Json.obj kvs :: rest)) = Json.arr (Json.obj kvs :: rest))
  ∧ (dictGet kvs "pricedlist" = none →
      parse_json_fluktuasi (Json.obj kvs) = Json.arr [Json.obj kvs]) := by
  refine ⟨fun h => ?_, fun h => ?_, fun h => ?_, fun h => ?_⟩ <;>
    simp [parse_json_fluktuasi, h]

/-- C8 (witness): the four shapes at concrete payloads. -/
theorem decode_four_shapes_witness :
    parse_json_fluktuasi (Json.obj [("pricedlist", innerList)]) = innerList
  ∧ parse_json_fluktuasi (Json.arr [Json.obj [("pricedlist", innerList)]]) = innerList
  ∧ parse_json_fluktuasi (Json.arr [Json.obj [("lastUpdate", Json.str "x")]]) =
      Json.arr [Json.obj [("lastUpdate", Json.str "x")]]
  ∧ parse_json_fluktuasi (Json.obj [("lastUpdate", Json.str "x")]) =
      Json.arr [Json.obj [("lastUpdate", Json.str "x")]] :=
  ⟨(decode_four_shapes [("pricedlist", innerList)] [] innerList).1 rfl,
   (decode_four_shapes [("pricedlist", innerList)] [] innerList).2.1 rfl,
   (decode_four_shapes [("lastUpdate", Json.str "x")] [] Json.null).2.2.1 rfl,
   (decode_four_shapes [("lastUpdate", Json.str "x")] [] Json.null).2.2.2 rfl⟩

/-- C3: the validDateCount reported for the series auto_map builds equals the
number of input points whose coerced date is non-null — the count of rows
whose resolved date cell parses; when no date column resolves, every date is
null and the count is zero.  The sort does not change the count because it
permutes the rows. -/
theorem build_validDateCount (rows : List Row) (tipe : String) :
    validDateCount (auto_map rows tipe).1 =
      (match (auto_map rows tipe).2.date with
       | some dc => rows.countP (fun r => (pdToDatetime (dictGet r dc)).isSome)
       | none => 0) := by
  by_cases ha : anyResolved (resolvedCols rows) = true
  · simp only [auto_map, if_pos ha, validDateCount, sortByTanggal]
    rw [List.Perm.countP_eq _ (List.perm_insertionSort pointLe _), List.countP_map]
    cases hd : (resolvedCols rows).date with
    | some dc => rfl
    | none =>
      have hz : ((fun p => p.tanggal.isSome) ∘
          normRow none
            (priceAssign (resolvedCols rows).buy (resolvedCols rows).sell
              (resolvedCols rows).generic tipe).1
            (priceAssign (resolvedCols rows).buy (resolvedCols rows).sell
              (resolvedCols rows).generic tipe).2) = fun _ => false := rfl
      rw [hz, List.countP_false]
      rfl
  · have hd : (resolvedCols rows).date = none := by
      cases hdd : (resolvedCols rows).date with
      | none => rfl
      | some dc => exact absurd (by simp [anyResolved, hdd]) ha
    simp only [auto_map, if_neg ha, validDateCount, hd]
    rfl

/-- C9 (counterexample): with two points carrying only the unrecognized key
foo, no date or price column resolves, the out frame never receives a
Series assignment and stays at zero rows: both input points are silently
dropped, refuting the claim that the series always has exactly one point
per raw point. -/
theorem no_columns_drops_all_rows :
    (auto_map noColsRows "beli").1 = []
  ∧ noColsRows.length = 2
  ∧ (auto_map noColsRows "beli").1.length ≠ noColsRows.length := by
  refine ⟨by decide, rfl, by decide⟩

/-- C9 (amended): whenever at least one column — date, buy, sell or generic
price — is resolved, auto_map retains every input point: the normalized
series has exactly one point per raw point (the sort permutes the rowwise
image of the input, so lengths agree), and every series point is the
normalization of some input row; rows whose date and prices all coerce to
null are still present.  When no column at all resolves, the out frame
never receives a Series assignment and keeps zero rows: every input row is
dropped (the caller then falls back to manual column mapping). -/
theorem build_retains_rows (rows : List Row) (tipe : String) :
    (anyResolved (resolvedCols rows) = true →
      (auto_map rows tipe).1.length = rows.length
      ∧ ∀ p ∈ (auto_map rows tipe).1, ∃ r ∈ rows,
          p = normRow (auto_map rows tipe).2.date
            (priceAssign (auto_map rows tipe).2.buy (auto_map rows tipe).2.sell
              (auto_map rows tipe).2.generic tipe).1
            (priceAssign (auto_map rows tipe).2.buy (auto_map rows tipe).2.sell
              (auto_map rows tipe).2.generic tipe).2 r)
  ∧ (anyResolved (resolvedCols rows) = false → (auto_map rows tipe).1 = []) := by
  constructor
  · intro ha
    constructor
    · simp only [auto_map, if_pos ha, sortByTanggal]
      rw [(List.perm_insertionSort pointLe _).length_eq, List.length_map]
    · intro p hp
      simp only [auto_map, if_pos ha, sortByTanggal] at hp ⊢
      have hp2 := (List.mem_insertionSort pointLe).mp hp
      obtain ⟨r, hr, heq⟩ := List.mem_map.mp hp2
      exact ⟨r, hr, heq.symm⟩
  · intro ha
    have ha2 : ¬ anyResolved (resolvedCols rows) = true := by simp [ha]
    simp only [auto_map, if_neg ha2]

/-- C9 (witness): on the one-point generic input — where a column resolves —
the series keeps its single row and that row is the normalization of the
input row; on the candidate-free input the series is empty. -/
theorem build_retains_rows_witness :
    (auto_map genericRows "beli").1.length = genericRows.length
  ∧ (∃ r ∈ genericRows,
      NormPoint.mk (some 20240102) (some 100) none =
        normRow (auto_map genericRows "beli").2.date
          (priceAssign (auto_map genericRows "beli").2.buy (auto_map genericRows "beli").2.sell
            (auto_map genericRows "beli").2.generic "beli").1
          (priceAssign (auto_map genericRows "beli").2.buy (auto_map genericRows "beli").2.sell
            (auto_map genericRows "beli").2.generic "beli").2 r)
  ∧ (auto_map noColsRows "jual").1 = [] := by
  have hs : (auto_map genericRows "beli").1 = [NormPoint.mk (some 20240102) (some 100) none] := by
    decide
  exact ⟨((build_retains_rows genericRows "beli").1 rfl).1,
    ((build_retains_rows genericRows "beli").1 rfl).2 (NormPoint.mk (some 20240102) (some 100) none)
      (by rw [hs]; exact List.mem_singleton_self _),
    (build_retains_rows noColsRows "jual").2 rfl⟩

/-- C4 (counterexample): with points carrying only the generic price column
harga and the date column tanggal, the category "sell" does not route the
generic values to harga_jual as the claim demands: the code only tests
tipe.lower() == "jual", so "sell" falls to the default branch and the values
land in harga_beli. -/
theorem generic_sell_counterexample :
    (auto_map genericRows "sell").1.map NormPoint.harga_jual = [none]
  ∧ (auto_map genericRows "sell").1.map NormPoint.harga_beli = [some 100] := by
  constructor
  · decide
  · decide

/-- C4 (amended): when a buy or a sell column is resolved the generic price
column is ignored entirely (the assignment is exactly the resolved buy/sell
pair); when neither resolves but a generic column exists, its values go to
harga_jual precisely when the category lowercases to "jual", and to
harga_beli for every other category — including "sell".  The third conjunct
ties the strategy to the series auto_map builds, including the zero-row
corner when no column resolves. -/
theorem price_strategy (buyCol sellCol genericCol : Option String) (tipe : String)
    (rows : List Row) :
    ((buyCol.isSome = true ∨ sellCol.isSome = true) →
      priceAssign buyCol sellCol genericCol tipe = (buyCol, sellCol))
  ∧ (∀ g, priceAssign none none (some g) tipe =
      if pyLower tipe == "jual" then (none, some g) else (some g, none))
  ∧ (auto_map rows tipe).1 =
      (if anyResolved (resolvedCols rows) then
        sortByTanggal (rows.map (normRow (resolvedCols rows).date
          (priceAssign (resolvedCols rows).buy (resolvedCols rows).sell
            (resolvedCols rows).generic tipe).1
          (priceAssign (resolvedCols rows).buy (resolvedCols rows).sell
            (resolvedCols rows).generic tipe).2))
      else []) := by
  refine ⟨?_, fun g => rfl, ?_⟩
  · intro h
    unfold priceAssign
    rw [if_pos]
    rcases h with h | h <;> simp [h]
  · by_cases ha : anyResolved (resolvedCols rows) = true
    · simp only [auto_map, if_pos ha]
    · simp only [auto_map, if_neg ha]

/-- C4 (amended, witness): a resolved buy column wins over a present generic
column, and a generic column goes to harga_jual for category "jual". -/
theorem price_strategy_witness :
    priceAssign (some "hargaBeli") none (some "harga") "beli" = (some "hargaBeli", none)
  ∧ priceAssign none none (some "harga") "jual" = (none, some "harga") :=
  ⟨(price_strategy (some "hargaBeli") none (some "harga") "beli" []).1 (Or.inl rfl),
   ((price_strategy none none (some "harga") "jual" []).2.1 "harga").trans (by decide)⟩

set_option maxRecDepth 8000 in
/-- C5 (code evidence): the argsort kernel behind the default
sort_values(kind="quicksort") applied to seventeen equal keys — seventeen
rows sharing one date — does not return the identity permutation: tied rows
are reordered, so the sort the code performs is not stable once more than 16
keys reach the partition step.  (For 16 or fewer keys the kernel runs its
insertion sort, which is stable — the instability is invisible on small
inputs.) -/
theorem default_quicksort_reorders_ties :
    npArgsort c5keys = [0, 14, 13, 12, 11, 10, 9, 15, 8, 6, 5, 4, 3, 2, 1, 7, 16]
  ∧ npArgsort c5keys ≠ List.range 17
  ∧ npArgsort (List.replicate 16 0) = List.range 16 := by
  refine ⟨by decide, by decide, by decide⟩

/-- C6 (counterexample): the comparison is not case-insensitive on the
requested side.  The catalog entry beli/360 matches the request "BELI"
under case-insensitive comparison, yet the selection returns nothing,
because only the entry's category is lowercased and "beli" ≠ "BELI". -/
theorem select_case_counterexample :
    ciEq beliRecord.tipe "BELI" = true
  ∧ selectRecord [beliRecord] "BELI" 360 = none :=
  ⟨rfl, rfl⟩

/-- C6 (amended): the selection returns exactly the first catalog entry, in
catalog order, whose lowercased category equals the requested category
verbatim and whose interval equals the requested interval as an integer —
case-insensitive with respect to the catalog entry only; every earlier
entry fails the predicate. -/
theorem select_first_match (records : List GrafikRecord) (tipe : String) (interval : Int)
    (r : GrafikRecord) :
    selectRecord records tipe interval = some r ↔
      matchesQuery tipe interval r = true ∧
      ∃ pre post, records = pre ++ r :: post ∧
        ∀ x ∈ pre, matchesQuery tipe interval x = false :=
  find?_first (matchesQuery tipe interval) records r

/-- C6 (amended, witness): with catalog [BELI/360, beli/360] and request
(beli, 360) the first entry wins — the uppercase entry, whose category
lowercases to the request. -/
theorem select_first_match_witness :
    selectRecord [upperBeliRecord, beliRecord] "beli" 360 = some upperBeliRecord :=
  (select_first_match [upperBeliRecord, beliRecord] "beli" 360 upperBeliRecord).mpr
    ⟨rfl, [], [beliRecord], rfl, fun x hx => absurd hx (List.not_mem_nil x)⟩

/-- C7 (counterexample): the no-match payload does not carry the pairs as
present in the catalog: categories are lowercased first.  For the catalog
[BELI/360] the code reports ("beli", 360), not the present pair
("BELI", 360). -/
theorem combos_lowercase_counterexample :
    combos [upperBeliRecord] = [("beli", 360)]
  ∧ specCombos [upperBeliRecord] = [("BELI", 360)]
  ∧ combos [upperBeliRecord] ≠ specCombos [upperBeliRecord] := by
  refine ⟨by decide, by decide, by decide⟩

/-- C7 (amended): when no entry matches, selection fails with NotFoundError
whose payload is the de-duplicated set of (lowercased category, interval)
pairs of the catalog, sorted lexicographically by category then numerically
by interval: the payload is sorted, duplicate-free, and holds exactly the
lowercased pairs present in the catalog. -/
theorem notfound_payload (records : List GrafikRecord) (tipe : String) (interval : Int)
    (h : selectRecord records tipe interval = none) :
    selectOrError records tipe interval = Except.error (SelectError.notFound (combos records))
  ∧ List.Sorted pairLe (combos records)
  ∧ (combos records).Nodup
  ∧ ∀ p, p ∈ combos records ↔ ∃ r ∈ records, p = (pyLower r.tipe, r.time_interval) := by
  refine ⟨?_, ?_, ?_, ?_⟩
  · unfold selectOrError
    rw [h]
  · exact List.sorted_insertionSort pairLe _
  · exact ((List.perm_insertionSort pairLe _).nodup_iff).mpr (List.nodup_dedup _)
  · intro p
    simp [combos, sortPairs, List.mem_insertionSort, List.mem_dedup, List.mem_map, eq_comm]

/-- C7 (witness): requesting (jual, 5) against the catalog [BELI/360] fails
and reports the lowercased pair. -/
theorem notfound_payload_witness :
    selectOrError [upperBeliRecord] "jual" 5 =
      Except.error (SelectError.notFound (combos [upperBeliRecord]))
  ∧ (("beli", (360 : Int)) ∈ combos [upperBeliRecord] ↔
      ∃ r ∈ [upperBeliRecord], ("beli", (360 : Int)) = (pyLower r.tipe, r.time_interval)) := by
  have h := notfound_payload [upperBeliRecord] "jual" 5 rfl
  exact ⟨h.1, h.2.2.2 ("beli", 360)⟩

/-- C10: the category comparison is one-sided — the catalog entry's category
is lowercased while the requested category is compared verbatim — so a
request containing an ASCII uppercase letter matches no entry of any
catalog: a lowercased string never contains an uppercase letter, hence
never equals the request. -/
theorem uppercase_request_never_matches (records : List GrafikRecord) (tipe : String)
    (interval : Int) (h : ∃ c ∈ tipe.data, isUpperAscii c = true) :
    selectRecord records tipe interval = none := by
  apply List.find?_eq_none.mpr
  intro r _
  intro hm
  rw [matchesQuery, Bool.and_eq_true] at hm
  have h1 : pyLower r.tipe = tipe := by
    have := hm.1
    simpa using this
  obtain ⟨c, hc, hup⟩ := h
  rw [← h1] at hc
  have hfalse := mem_pyLower_not_upper hc
  rw [hup] at hfalse
  exact Bool.noConfusion hfalse

/-- C10 (witness): the request "Jual" (capital J) matches nothing, even
against a catalog holding the category jual with the requested interval. -/
theorem uppercase_request_never_matches_witness :
    selectRecord [jualRecord] "Jual" 30 = none :=
  uppercase_request_never_matches [jualRecord] "Jual" 30
    ⟨'J', by decide, by decide⟩

/-- Supporting fact for the sort model: the series auto_map returns is
ascending by date with null dates last — the ordering contract of
sort_values that every kind honors.  The stability of tie order is the one
part the default quicksort kind does not add to this contract. -/
theorem auto_map_series_sorted (rows : List Row) (tipe : String) :
    List.Sorted pointLe (auto_map rows tipe).1 := by
  by_cases ha : anyResolved (resolvedCols rows) = true
  · simp only [auto_map, if_pos ha]
    exact List.sorted_insertionSort pointLe _
  · simp only [auto_map, if_neg ha]
    exact List.sorted_nil
